import Mathlib

/-!
Shallow embedding of `pkg/notify/elasticsearch.go` (botkube): the
ElasticSearch notifier sink.  The network interaction with the elastic
client is modelled by an environment of response oracles, one per kind of
request the sink issues; `time.Now()` is modelled by a clock indexed by
the number of preceding clock reads inside the call.  `SendEvent` returns
the trace of requests issued, the log entries emitted, the returned error
(if any) and the sink state after the call.
-/

namespace Botkube

/-- A transport-level error returned by the underlying client, opaque to
the sink (Go `error`; `err.Error()` is the string itself). -/
abbrev TErr := String

/-- A calendar date as read from the runtime clock. -/
structure Date where
  day : Nat
  month : Nat
  year : Nat
deriving DecidableEq

/-- Zero-pad a number to two digits, as the Go layout components "02" and
"01" do. -/
def pad2 (n : Nat) : String :=
  if n < 10 then "0" ++ toString n else toString n

/-- Zero-pad a number to four digits, as the Go layout component "2006"
does. -/
def pad4 (n : Nat) : String :=
  if n < 10 then "000" ++ toString n
  else if n < 100 then "00" ++ toString n
  else if n < 1000 then "0" ++ toString n
  else toString n

/-- `indexSuffixFormat` is the Go date-format layout appended to the index
name (day-month-year, zero padded). -/
def indexSuffixFormat : String := "02-01-2006"

/-- `d.Format("02-01-2006")`: DD-MM-YYYY rendering of a date. -/
def formatSuffix (d : Date) : String :=
  pad2 d.day ++ "-" ++ pad2 d.month ++ "-" ++ pad4 d.year

/-- The caller-supplied structured event record.  The sink touches only
the `Cluster` field; every other field is opaque to it and is modelled by
the single `payload` field. -/
structure Event where
  Cluster : String
  payload : String
deriving DecidableEq

/-- ElasticSearch contains auth cred and index setting (the Go struct,
minus the opaque `*elastic.Client` handle, whose behaviour lives in the
environment).  The Go field `Type` is called `Typ` here because `Type` is
reserved in Lean. -/
structure ElasticSearch where
  Server : String
  Index : String
  Shards : Int
  Replicas : Int
  Typ : String
  ClusterName : String
deriving DecidableEq

/-- Go struct `index`: the body of the `index` JSON object of a create
request. -/
structure index where
  Shards : Int
  Replicas : Int
deriving DecidableEq

/-- Go struct `settings`. -/
structure settings where
  Index : index
deriving DecidableEq

/-- Go struct `mapping`: the JSON body of a create-index request. -/
structure mapping where
  Settings : settings
deriving DecidableEq

/-- The JSON serialization of a `mapping` value under its Go json tags:
`\x7b"settings":\x7b"index":\x7b"number_of_shards":N,"number_of_replicas":M\x7d\x7d\x7d`. -/
def mappingJson (m : mapping) : String :=
  "\x7b\"settings\":\x7b\"index\":\x7b\"number_of_shards\":"
    ++ toString m.Settings.Index.Shards
    ++ ",\"number_of_replicas\":"
    ++ toString m.Settings.Index.Replicas
    ++ "\x7d\x7d\x7d"

/-- The expected create-request body for configured shard count `sh` and
replica count `re`. -/
def shapeJson (sh re : Int) : String :=
  "\x7b\"settings\":\x7b\"index\":\x7b\"number_of_shards\":"
    ++ toString sh
    ++ ",\"number_of_replicas\":"
    ++ toString re
    ++ "\x7d\x7d\x7d"

/-- One outbound request issued by the sink, carrying exactly the data the
Go code puts on the wire for it. -/
inductive Request where
  | indexExists (name : String)
  | createIndex (name : String) (body : mapping)
  | indexDoc (name : String) (typ : String) (body : Event)
  | flush (name : String)
deriving DecidableEq

/-- The target (index) name a request is addressed to. -/
def Request.target : Request → String
  | Request.indexExists n => n
  | Request.createIndex n _ => n
  | Request.indexDoc n _ _ => n
  | Request.flush n => n

/-- The typed error category under which a failure of each request kind is
logged. -/
inductive ErrCategory where
  | existenceCheck
  | createTarget
  | write
  | flush
deriving DecidableEq

/-- The log-message context the Go code attaches to each category. -/
def ErrCategory.logContext : ErrCategory → String
  | ErrCategory.existenceCheck => "Failed to get index. Error:"
  | ErrCategory.createTarget => "Failed to create index. Error:"
  | ErrCategory.write => "Failed to post data to els. Error:"
  | ErrCategory.flush => "Failed to flush data to els. Error:"

/-- The category a failure of a given request is reported under. -/
def catOf : Request → ErrCategory
  | Request.indexExists _ => ErrCategory.existenceCheck
  | Request.createIndex _ _ => ErrCategory.createTarget
  | Request.indexDoc _ _ _ => ErrCategory.write
  | Request.flush _ => ErrCategory.flush

/-- One emitted log entry: a debug line, or an error line carrying its
typed category and the underlying transport error. -/
inductive LogEntry where
  | debug (msg : String)
  | errorLog (cat : ErrCategory) (err : TErr)
deriving DecidableEq

/-- The environment a `SendEvent` call runs in: the clock (`clock k` is
what the `k`-th `time.Now()` read returns) and the backend's response to
each request shape. -/
structure Env where
  clock : Nat → Date
  existsResp : String → Except TErr Bool
  createResp : String → mapping → Except TErr Unit
  indexResp : String → String → Event → Except TErr Unit
  flushResp : String → Except TErr Unit

/-- The backend's response to a whole request (the payload of an
existence check is discarded). -/
def respOf (env : Env) : Request → Except TErr Unit
  | Request.indexExists n => (env.existsResp n).map (fun _ => ())
  | Request.createIndex n b => env.createResp n b
  | Request.indexDoc n t b => env.indexResp n t b
  | Request.flush n => env.flushResp n

/-- The observable outcome of one sink call. -/
structure SendResult where
  requests : List Request
  logs : List LogEntry
  result : Option TErr
  finalSink : ElasticSearch
deriving DecidableEq

/-- `e.Index + "-" + time.Now().Format(indexSuffixFormat)` for a given
clock reading. -/
def partitionName (e : ElasticSearch) (d : Date) : String :=
  e.Index ++ "-" ++ formatSuffix d

/-- The tail of `SendEvent` after the create-if-absent step: index the
document, then flush.  `t` is the number of `time.Now()` reads already
performed, `reqs0`/`logs0` the requests and logs accumulated so far. -/
def writeAndFlush (e : ElasticSearch) (env : Env) (event : Event) (t : Nat)
    (reqs0 : List Request) (logs0 : List LogEntry) : SendResult :=
  let n := partitionName e (env.clock t)
  let reqs1 := reqs0 ++ [Request.indexDoc n e.Typ event]
  match env.indexResp n e.Typ event with
  | Except.error err =>
      { requests := reqs1
        logs := logs0 ++ [LogEntry.errorLog ErrCategory.write err]
        result := some err
        finalSink := e }
  | Except.ok _ =>
      let n2 := partitionName e (env.clock (t + 1))
      let reqs2 := reqs1 ++ [Request.flush n2]
      match env.flushResp n2 with
      | Except.error err =>
          { requests := reqs2
            logs := logs0 ++ [LogEntry.errorLog ErrCategory.flush err]
            result := some err
            finalSink := e }
      | Except.ok _ =>
          { requests := reqs2
            logs := logs0 ++
              [LogEntry.debug ("Event successfully sent to ElasticSearch index "
                ++ partitionName e (env.clock (t + 2)))]
            result := none
            finalSink := e }

/-- SendEvent sends an event notification to ElasticSearch: overwrite the
event's cluster field, check whether the date-partitioned index exists,
create it if absent, index the document, flush.  Direct translation of the
Go method; each `time.Now()` call reads the clock at the next counter. -/
def SendEvent (e : ElasticSearch) (env : Env) (event0 : Event) : SendResult :=
  let logs0 : List LogEntry :=
    [LogEntry.debug (">> Sending to ElasticSearch: "
      ++ event0.Cluster ++ " " ++ event0.payload)]
  let event : Event := { event0 with Cluster := e.ClusterName }
  let n0 := partitionName e (env.clock 0)
  match env.existsResp n0 with
  | Except.error err =>
      { requests := [Request.indexExists n0]
        logs := logs0 ++ [LogEntry.errorLog ErrCategory.existenceCheck err]
        result := some err
        finalSink := e }
  | Except.ok found =>
      if found then
        writeAndFlush e env event 1 [Request.indexExists n0] logs0
      else
        let m : mapping :=
          { Settings := { Index := { Shards := e.Shards, Replicas := e.Replicas } } }
        let n1 := partitionName e (env.clock 1)
        match env.createResp n1 m with
        | Except.error err =>
            { requests := [Request.indexExists n0, Request.createIndex n1 m]
              logs := logs0 ++ [LogEntry.errorLog ErrCategory.createTarget err]
              result := some err
              finalSink := e }
        | Except.ok _ =>
            writeAndFlush e env event 2
              [Request.indexExists n0, Request.createIndex n1 m] logs0

/-- SendMessage: the Go method body is `return nil` — no requests, no
logs, no error, sink untouched. -/
def SendMessage (e : ElasticSearch) (_msg : String) : SendResult :=
  { requests := []
    logs := []
    result := none
    finalSink := e }

/-- `awsService` for the AWS client to authenticate against. -/
def awsService : String := "es"

/-- AWS-signing section of the configuration. -/
structure AWSSigningCfg where
  Enabled : Bool
  AWSRegion : String
  RoleArn : String
deriving DecidableEq

/-- Index section of the configuration (Go field `Type` renamed `Typ`). -/
structure IndexCfg where
  Name : String
  Typ : String
  Shards : Int
  Replicas : Int
deriving DecidableEq

/-- `config.ElasticSearch` settings block. -/
structure ElasticSearchCfg where
  Server : String
  Username : String
  Password : String
  AWSSigning : AWSSigningCfg
  Index : IndexCfg
deriving DecidableEq

/-- `config.CommunicationsConfig` block (only the part the sink reads). -/
structure CommunicationsConfig where
  ElasticSearch : ElasticSearchCfg
deriving DecidableEq

/-- `config.Settings` block (only the part the sink reads). -/
structure Settings where
  ClusterName : String
deriving DecidableEq

/-- The configuration handed to the constructor. -/
structure Config where
  CommunicationsConfig : CommunicationsConfig
  Settings : Settings
deriving DecidableEq

/-- Where the signing credentials come from: STS role assumption when a
role ARN is configured, ambient EC2 role credentials otherwise. -/
inductive CredsSource where
  | stsAssumeRole (roleArn : String)
  | ec2Role
deriving DecidableEq

/-- The signing HTTP client built by `aws_signing_client.New`: every
request through it is signed with the given credentials for the given
service and region. -/
structure SignedClient where
  creds : CredsSource
  service : String
  region : String
deriving DecidableEq

/-- The option set passed to `elastic.NewClient`.  Fields the Go code does
not set keep the library defaults modelled as `none`. -/
structure ClientOptions where
  url : String
  scheme : Option String
  basicAuth : Option (String × String)
  httpClient : Option SignedClient
  sniff : Bool
  healthcheck : Bool
  gzip : Bool
deriving DecidableEq

/-- Failure oracles for the two fallible external constructors the Go
code calls. -/
structure BuildEnv where
  signingClientErr : SignedClient → Option TErr
  newClientErr : ClientOptions → Option TErr

/-- NewElasticSearch returns a new ElasticSearch object: translation of
the Go constructor.  On success it exposes the option set the elastic
client was built with, alongside the sink struct (whose Go composite
literal leaves `Server` at its zero value). -/
def NewElasticSearch (benv : BuildEnv) (c : Config) :
    Except TErr (ClientOptions × ElasticSearch) :=
  let es := c.CommunicationsConfig.ElasticSearch
  let sink : ElasticSearch :=
    { Server := ""
      Index := es.Index.Name
      Typ := es.Index.Typ
      Shards := es.Index.Shards
      Replicas := es.Index.Replicas
      ClusterName := c.Settings.ClusterName }
  if es.AWSSigning.Enabled then
    let creds :=
      if es.AWSSigning.RoleArn ≠ "" then
        CredsSource.stsAssumeRole es.AWSSigning.RoleArn
      else
        CredsSource.ec2Role
    let awsClient : SignedClient :=
      { creds := creds, service := awsService, region := es.AWSSigning.AWSRegion }
    match benv.signingClientErr awsClient with
    | some err => Except.error err
    | none =>
        let opts : ClientOptions :=
          { url := es.Server
            scheme := some "https"
            basicAuth := none
            httpClient := some awsClient
            sniff := false
            healthcheck := false
            gzip := false }
        match benv.newClientErr opts with
        | some err => Except.error err
        | none => Except.ok (opts, sink)
  else
    let opts : ClientOptions :=
      { url := es.Server
        scheme := none
        basicAuth := some (es.Username, es.Password)
        httpClient := none
        sniff := false
        healthcheck := false
        gzip := true }
    match benv.newClientErr opts with
    | some err => Except.error err
    | none => Except.ok (opts, sink)

/-- Request-kind predicates for counting. -/
def isCreate : Request → Bool
  | Request.createIndex _ _ => true
  | _ => false

def isWrite : Request → Bool
  | Request.indexDoc _ _ _ => true
  | _ => false

def isExistsReq : Request → Bool
  | Request.indexExists _ => true
  | _ => false

def isFlush : Request → Bool
  | Request.flush _ => true
  | _ => false

/-! Concrete fixtures used to instantiate the theorems below. -/

/-- A concrete sink configuration. -/
def sink₀ : ElasticSearch :=
  { Server := ""
    Index := "k8sevents"
    Shards := 2
    Replicas := 1
    Typ := "botkube-event"
    ClusterName := "demo-cluster" }

/-- A concrete caller event, with a cluster value the caller set. -/
def ev₀ : Event := { Cluster := "caller-cluster", payload := "pod oom-killed" }

/-- 7 March 2024. -/
def date₀ : Date := { day := 7, month := 3, year := 2024 }

/-- Environment: index already exists, every request succeeds, clock
frozen at 7 March 2024. -/
def envAllOk : Env :=
  { clock := fun _ => date₀
    existsResp := fun _ => Except.ok true
    createResp := fun _ _ => Except.ok ()
    indexResp := fun _ _ _ => Except.ok ()
    flushResp := fun _ => Except.ok () }

/-- Environment: index absent, every request succeeds, and the clock
advances one day per read (to exhibit per-request recomputation of the
target name). -/
def envFresh : Env :=
  { clock := fun k => { day := 7 + k, month := 3, year := 2024 }
    existsResp := fun _ => Except.ok false
    createResp := fun _ _ => Except.ok ()
    indexResp := fun _ _ _ => Except.ok ()
    flushResp := fun _ => Except.ok () }

/-- Environment: the existence check itself fails. -/
def envExistsErr : Env :=
  { clock := fun _ => date₀
    existsResp := fun _ => Except.error "connection refused"
    createResp := fun _ _ => Except.ok ()
    indexResp := fun _ _ _ => Except.ok ()
    flushResp := fun _ => Except.ok () }

/-- Environment: index exists but the write request fails. -/
def envWriteErr : Env :=
  { clock := fun _ => date₀
    existsResp := fun _ => Except.ok true
    createResp := fun _ _ => Except.ok ()
    indexResp := fun _ _ _ => Except.error "write timeout"
    flushResp := fun _ => Except.ok () }

/-- Construction oracles that never fail. -/
def benv₀ : BuildEnv :=
  { signingClientErr := fun _ => none
    newClientErr := fun _ => none }

/-- A basic-credential configuration. -/
def cfgBasic : Config :=
  { CommunicationsConfig :=
      { ElasticSearch :=
          { Server := "https://es.example:9200"
            Username := "botkube"
            Password := "secret"
            AWSSigning := { Enabled := false, AWSRegion := "", RoleArn := "" }
            Index := { Name := "k8sevents", Typ := "botkube-event", Shards := 2, Replicas := 1 } } }
    Settings := { ClusterName := "demo-cluster" } }

/-- A signed-request configuration with a role ARN. -/
def cfgSigned : Config :=
  { CommunicationsConfig :=
      { ElasticSearch :=
          { Server := "https://es.example:9200"
            Username := ""
            Password := ""
            AWSSigning :=
              { Enabled := true
                AWSRegion := "us-east-1"
                RoleArn := "arn:aws:iam::1:role/es" }
            Index := { Name := "k8sevents", Typ := "botkube-event", Shards := 2, Replicas := 1 } } }
    Settings := { ClusterName := "demo-cluster" } }

/-- The options `elastic.NewClient` receives when `cfgBasic` is built with
oracles that never fail. -/
def optsBasic₀ : ClientOptions :=
  { url := "https://es.example:9200"
    scheme := none
    basicAuth := some ("botkube", "secret")
    httpClient := none
    sniff := false
    healthcheck := false
    gzip := true }

/-- The options `elastic.NewClient` receives when `cfgSigned` is built
with oracles that never fail. -/
def optsSigned₀ : ClientOptions :=
  { url := "https://es.example:9200"
    scheme := some "https"
    basicAuth := none
    httpClient := some
      { creds := CredsSource.stsAssumeRole "arn:aws:iam::1:role/es"
        service := awsService
        region := "us-east-1" }
    sniff := false
    healthcheck := false
    gzip := false }

/-! Theorems: one per claim, with its witness where the statement has a
hypothesis. -/

/-- Claim C1: on a fresh target (the existence check answers absent)
`SendEvent` issues exactly one create-target request, and any write
request comes after it (the create/write subtrace is `[create]` when the
create fails, `[create, write]` otherwise); on an existing target it
issues zero create-target requests. -/
theorem sendEvent_createOnFresh (e : ElasticSearch) (env : Env) (ev : Event) :
    (env.existsResp (partitionName e (env.clock 0)) = Except.ok false →
       (SendEvent e env ev).requests.countP isCreate = 1 ∧
       ((SendEvent e env ev).requests.filter (fun q => isCreate q || isWrite q) =
           [Request.createIndex (partitionName e (env.clock 1)) ⟨⟨⟨e.Shards, e.Replicas⟩⟩⟩] ∨
        (SendEvent e env ev).requests.filter (fun q => isCreate q || isWrite q) =
           [Request.createIndex (partitionName e (env.clock 1)) ⟨⟨⟨e.Shards, e.Replicas⟩⟩⟩,
            Request.indexDoc (partitionName e (env.clock 2)) e.Typ { ev with Cluster := e.ClusterName }])) ∧
    (env.existsResp (partitionName e (env.clock 0)) = Except.ok true →
       (SendEvent e env ev).requests.countP isCreate = 0) := by
  constructor
  · intro h
    simp only [SendEvent, writeAndFlush]
    rw [h]
    cases hC : env.createResp (partitionName e (env.clock 1)) ⟨⟨⟨e.Shards, e.Replicas⟩⟩⟩ with
    | error err => simp [isCreate, isWrite]
    | ok u =>
      cases hW : env.indexResp (partitionName e (env.clock 2)) e.Typ { ev with Cluster := e.ClusterName } with
      | error err => simp [isCreate, isWrite]
      | ok u2 =>
        cases hF : env.flushResp (partitionName e (env.clock 3)) with
        | error e2 => simp [isCreate, isWrite]
        | ok u3 => simp [isCreate, isWrite]
  · intro h
    simp only [SendEvent, writeAndFlush]
    rw [h]
    cases hW : env.indexResp (partitionName e (env.clock 1)) e.Typ { ev with Cluster := e.ClusterName } with
    | error err => simp [isCreate]
    | ok u =>
      cases hF : env.flushResp (partitionName e (env.clock 2)) with
      | error e2 => simp [isCreate]
      | ok u2 => simp [isCreate]

/-- Witness for C1: in the fresh environment one create request is
issued, in the existing-target environment none. -/
theorem sendEvent_createOnFresh_witness :
    (SendEvent sink₀ envFresh ev₀).requests.countP isCreate = 1 ∧
    (SendEvent sink₀ envAllOk ev₀).requests.countP isCreate = 0 :=
  ⟨((sendEvent_createOnFresh sink₀ envFresh ev₀).1 rfl).1,
   (sendEvent_createOnFresh sink₀ envAllOk ev₀).2 rfl⟩

/-- Claim C2: the `k`-th request of a `SendEvent` call is addressed to
`base ++ "-" ++ formatSuffix (clock k)`, i.e. the target name is
recomputed from the clock at each request rather than computed once. -/
theorem sendEvent_targetNames (e : ElasticSearch) (env : Env) (ev : Event) :
    ∀ k q, (SendEvent e env ev).requests.get? k = some q →
      q.target = partitionName e (env.clock k) := by
  simp only [SendEvent, writeAndFlush]
  cases hE : env.existsResp (partitionName e (env.clock 0)) with
  | error err =>
    intro k q hq
    rcases k with _ | _ | _ | _ | k <;> simp at hq <;> subst hq <;> simp [Request.target]
  | ok found =>
    cases found with
    | true =>
      cases hW : env.indexResp (partitionName e (env.clock 1)) e.Typ { ev with Cluster := e.ClusterName } with
      | error err =>
        intro k q hq
        rcases k with _ | _ | _ | _ | k <;> simp at hq <;> subst hq <;> simp [Request.target]
      | ok u =>
        cases hF : env.flushResp (partitionName e (env.clock 2)) with
        | error e2 =>
          intro k q hq
          rcases k with _ | _ | _ | _ | k <;> simp at hq <;> subst hq <;> simp [Request.target]
        | ok u2 =>
          intro k q hq
          rcases k with _ | _ | _ | _ | k <;> simp at hq <;> subst hq <;> simp [Request.target]
    | false =>
      cases hC : env.createResp (partitionName e (env.clock 1)) ⟨⟨⟨e.Shards, e.Replicas⟩⟩⟩ with
      | error err =>
        intro k q hq
        rcases k with _ | _ | _ | _ | k <;> simp at hq <;> subst hq <;> simp [Request.target]
      | ok u =>
        cases hW : env.indexResp (partitionName e (env.clock 2)) e.Typ { ev with Cluster := e.ClusterName } with
        | error err =>
          intro k q hq
          rcases k with _ | _ | _ | _ | k <;> simp at hq <;> subst hq <;> simp [Request.target]
        | ok u2 =>
          cases hF : env.flushResp (partitionName e (env.clock 3)) with
          | error e2 =>
            intro k q hq
            rcases k with _ | _ | _ | _ | k <;> simp at hq <;> subst hq <;> simp [Request.target]
          | ok u3 =>
            intro k q hq
            rcases k with _ | _ | _ | _ | k <;> simp at hq <;> subst hq <;> simp [Request.target]

/-- Witness for C2: base "k8sevents" with the clock at 7 March 2024 gives
target "k8sevents-07-03-2024" for the first request, and the second
request of the same call (clock rolled to 8 March) is addressed to
"k8sevents-08-03-2024": the name is recomputed per request. -/
theorem sendEvent_targetNames_witness :
    Request.target (Request.indexExists "k8sevents-07-03-2024") =
      partitionName sink₀ (envFresh.clock 0) ∧
    Request.target (Request.createIndex "k8sevents-08-03-2024" ⟨⟨⟨2, 1⟩⟩⟩) =
      partitionName sink₀ (envFresh.clock 1) :=
  ⟨sendEvent_targetNames sink₀ envFresh ev₀ 0 _ (by decide),
   sendEvent_targetNames sink₀ envFresh ev₀ 1 _ (by decide)⟩

/-- Claim C3: every document body sent by a write request carries the
sink's configured cluster label, regardless of the value the caller set
on the event. -/
theorem sendEvent_clusterOverwrite (e : ElasticSearch) (env : Env) (ev : Event) :
    ∀ n t b, Request.indexDoc n t b ∈ (SendEvent e env ev).requests →
      b.Cluster = e.ClusterName := by
  simp only [SendEvent, writeAndFlush]
  cases hE : env.existsResp (partitionName e (env.clock 0)) with
  | error err => intro n t b hb; simp at hb
  | ok found =>
    cases found with
    | true =>
      cases hW : env.indexResp (partitionName e (env.clock 1)) e.Typ { ev with Cluster := e.ClusterName } with
      | error err => intro n t b hb; simp at hb; rw [hb.2.2]
      | ok u =>
        cases hF : env.flushResp (partitionName e (env.clock 2)) with
        | error e2 => intro n t b hb; simp at hb; rw [hb.2.2]
        | ok u2 => intro n t b hb; simp at hb; rw [hb.2.2]
    | false =>
      cases hC : env.createResp (partitionName e (env.clock 1)) ⟨⟨⟨e.Shards, e.Replicas⟩⟩⟩ with
      | error err => intro n t b hb; simp at hb
      | ok u =>
        cases hW : env.indexResp (partitionName e (env.clock 2)) e.Typ { ev with Cluster := e.ClusterName } with
        | error err => intro n t b hb; simp at hb; rw [hb.2.2]
        | ok u2 =>
          cases hF : env.flushResp (partitionName e (env.clock 3)) with
          | error e2 => intro n t b hb; simp at hb; rw [hb.2.2]
          | ok u3 => intro n t b hb; simp at hb; rw [hb.2.2]

/-- Witness for C3: the caller set cluster "caller-cluster", the stored
document carries the sink's "demo-cluster". -/
theorem sendEvent_clusterOverwrite_witness :
    Event.Cluster { Cluster := "demo-cluster", payload := "pod oom-killed" } =
      sink₀.ClusterName :=
  sendEvent_clusterOverwrite sink₀ envAllOk ev₀ "k8sevents-07-03-2024" "botkube-event"
    { Cluster := "demo-cluster", payload := "pod oom-killed" } (by decide)

/-- Claim C4: when the existence check fails, the trace is exactly that
one request — no create, no write, no flush — and the transport error is
returned to the caller. -/
theorem sendEvent_existsCheckFail (e : ElasticSearch) (env : Env) (ev : Event) (err : TErr)
    (h : env.existsResp (partitionName e (env.clock 0)) = Except.error err) :
    (SendEvent e env ev).requests = [Request.indexExists (partitionName e (env.clock 0))] ∧
    (SendEvent e env ev).requests.countP isCreate = 0 ∧
    (SendEvent e env ev).requests.countP isWrite = 0 ∧
    (SendEvent e env ev).requests.countP isFlush = 0 ∧
    (SendEvent e env ev).result = some err := by
  simp only [SendEvent]
  simp [h, isCreate, isWrite, isFlush]

/-- Witness for C4: with an existence check failing as "connection
refused", only that request is issued and that error is returned. -/
theorem sendEvent_existsCheckFail_witness :
    (SendEvent sink₀ envExistsErr ev₀).requests =
      [Request.indexExists (partitionName sink₀ (envExistsErr.clock 0))] ∧
    (SendEvent sink₀ envExistsErr ev₀).result = some "connection refused" :=
  ⟨(sendEvent_existsCheckFail sink₀ envExistsErr ev₀ "connection refused" rfl).1,
   (sendEvent_existsCheckFail sink₀ envExistsErr ev₀ "connection refused" rfl).2.2.2.2⟩

/-- Claim C5: if the write request that was issued fails, no flush
request is issued and that error is returned to the caller. -/
theorem sendEvent_writeFail (e : ElasticSearch) (env : Env) (ev : Event)
    (n t : String) (b : Event) (err : TErr)
    (hmem : Request.indexDoc n t b ∈ (SendEvent e env ev).requests)
    (hfail : env.indexResp n t b = Except.error err) :
    (SendEvent e env ev).requests.countP isFlush = 0 ∧
    (SendEvent e env ev).result = some err := by
  simp only [SendEvent, writeAndFlush] at hmem ⊢
  cases hE : env.existsResp (partitionName e (env.clock 0)) with
  | error e2 => simp [hE] at hmem
  | ok found =>
    cases found with
    | true =>
      cases hW : env.indexResp (partitionName e (env.clock 1)) e.Typ { ev with Cluster := e.ClusterName } with
      | error e2 =>
        simp [hE, hW] at hmem
        obtain ⟨hn, ht, hb⟩ := hmem
        subst hn; subst ht; subst hb
        rw [hW] at hfail
        injection hfail with h2
        subst h2
        simp [isFlush]
      | ok u =>
        cases hF : env.flushResp (partitionName e (env.clock 2)) with
        | error e2 =>
          simp [hE, hW, hF] at hmem
          obtain ⟨hn, ht, hb⟩ := hmem
          subst hn; subst ht; subst hb
          rw [hW] at hfail
          exact absurd hfail (by simp)
        | ok u2 =>
          simp [hE, hW, hF] at hmem
          obtain ⟨hn, ht, hb⟩ := hmem
          subst hn; subst ht; subst hb
          rw [hW] at hfail
          exact absurd hfail (by simp)
    | false =>
      cases hC : env.createResp (partitionName e (env.clock 1)) ⟨⟨⟨e.Shards, e.Replicas⟩⟩⟩ with
      | error e2 => simp [hE, hC] at hmem
      | ok u =>
        cases hW : env.indexResp (partitionName e (env.clock 2)) e.Typ { ev with Cluster := e.ClusterName } with
        | error e2 =>
          simp [hE, hC, hW] at hmem
          obtain ⟨hn, ht, hb⟩ := hmem
          subst hn; subst ht; subst hb
          rw [hW] at hfail
          injection hfail with h2
          subst h2
          simp [isFlush]
        | ok u2 =>
          cases hF : env.flushResp (partitionName e (env.clock 3)) with
          | error e2 =>
            simp [hE, hC, hW, hF] at hmem
            obtain ⟨hn, ht, hb⟩ := hmem
            subst hn; subst ht; subst hb
            rw [hW] at hfail
            exact absurd hfail (by simp)
          | ok u3 =>
            simp [hE, hC, hW, hF] at hmem
            obtain ⟨hn, ht, hb⟩ := hmem
            subst hn; subst ht; subst hb
            rw [hW] at hfail
            exact absurd hfail (by simp)

/-- Witness for C5: with the write failing as "write timeout", no flush
request is issued and that error is returned. -/
theorem sendEvent_writeFail_witness :
    (SendEvent sink₀ envWriteErr ev₀).requests.countP isFlush = 0 ∧
    (SendEvent sink₀ envWriteErr ev₀).result = some "write timeout" :=
  sendEvent_writeFail sink₀ envWriteErr ev₀ "k8sevents-07-03-2024" "botkube-event"
    { Cluster := "demo-cluster", payload := "pod oom-killed" } "write timeout" (by decide) rfl

/-- Claim C6: every create request's JSON body is exactly the settings
object built from the sink's configured shard and replica counts, at most
one create request is issued per call, and the non-create requests of a
call are unchanged when the configured shape changes (shape information
is carried only by the create request; the body-insensitivity hypothesis
on the create oracle makes the two runs comparable). -/
theorem sendEvent_shapeOnlyInCreate (e : ElasticSearch) (env : Env) (ev : Event) (s r : Int)
    (hresp : ∀ n b b', env.createResp n b = env.createResp n b') :
    (∀ n b, Request.createIndex n b ∈ (SendEvent e env ev).requests →
        mappingJson b = shapeJson e.Shards e.Replicas) ∧
    (SendEvent e env ev).requests.countP isCreate ≤ 1 ∧
    ((SendEvent { e with Shards := s, Replicas := r } env ev).requests.filter
        (fun q => ! isCreate q) =
      (SendEvent e env ev).requests.filter (fun q => ! isCreate q)) := by
  have hpn : ∀ d, partitionName { e with Shards := s, Replicas := r } d = partitionName e d :=
    fun d => rfl
  have hkey : env.createResp (partitionName e (env.clock 1)) ⟨⟨⟨s, r⟩⟩⟩ =
      env.createResp (partitionName e (env.clock 1)) ⟨⟨⟨e.Shards, e.Replicas⟩⟩⟩ :=
    hresp _ _ _
  simp only [SendEvent, writeAndFlush, hpn, hkey]
  cases hE : env.existsResp (partitionName e (env.clock 0)) with
  | error e2 =>
    refine ⟨?_, by simp [isCreate], by simp [isCreate]⟩
    intro n b hb
    simp at hb
  | ok found =>
    cases found with
    | true =>
      cases hW : env.indexResp (partitionName e (env.clock 1)) e.Typ { ev with Cluster := e.ClusterName } with
      | error e2 =>
        refine ⟨?_, by simp [isCreate], by simp [isCreate]⟩
        intro n b hb
        simp at hb
      | ok u =>
        cases hF : env.flushResp (partitionName e (env.clock 2)) with
        | error e2 =>
          refine ⟨?_, by simp [isCreate], by simp [isCreate]⟩
          intro n b hb
          simp at hb
        | ok u2 =>
          refine ⟨?_, by simp [isCreate], by simp [isCreate]⟩
          intro n b hb
          simp at hb
    | false =>
      cases hC : env.createResp (partitionName e (env.clock 1)) ⟨⟨⟨e.Shards, e.Replicas⟩⟩⟩ with
      | error e2 =>
        refine ⟨?_, by simp [isCreate], by simp [isCreate]⟩
        intro n b hb
        simp at hb
        rw [hb.2]
        simp [mappingJson, shapeJson]
      | ok u =>
        cases hW : env.indexResp (partitionName e (env.clock 2)) e.Typ { ev with Cluster := e.ClusterName } with
        | error e2 =>
          refine ⟨?_, by simp [isCreate], by simp [isCreate]⟩
          intro n b hb
          simp at hb
          rw [hb.2]
          simp [mappingJson, shapeJson]
        | ok u2 =>
          cases hF : env.flushResp (partitionName e (env.clock 3)) with
          | error e2 =>
            refine ⟨?_, by simp [isCreate], by simp [isCreate]⟩
            intro n b hb
            simp at hb
            rw [hb.2]
            simp [mappingJson, shapeJson]
          | ok u3 =>
            refine ⟨?_, by simp [isCreate], by simp [isCreate]⟩
            intro n b hb
            simp at hb
            rw [hb.2]
            simp [mappingJson, shapeJson]

/-- Witness for C6: the create body for shards 2 and replicas 1 is the
exact JSON object, and changing the configured shape to 5/3 leaves the
non-create requests of the call unchanged. -/
theorem sendEvent_shapeOnlyInCreate_witness :
    mappingJson ⟨⟨⟨2, 1⟩⟩⟩ = shapeJson sink₀.Shards sink₀.Replicas ∧
    ((SendEvent { sink₀ with Shards := 5, Replicas := 3 } envFresh ev₀).requests.filter
        (fun q => ! isCreate q) =
      (SendEvent sink₀ envFresh ev₀).requests.filter (fun q => ! isCreate q)) :=
  ⟨(sendEvent_shapeOnlyInCreate sink₀ envFresh ev₀ 5 3 (fun _ _ _ => rfl)).1
      "k8sevents-08-03-2024" ⟨⟨⟨2, 1⟩⟩⟩ (by decide),
   (sendEvent_shapeOnlyInCreate sink₀ envFresh ev₀ 5 3 (fun _ _ _ => rfl)).2.2⟩

/-- Claim C7: whenever `SendEvent` returns an error, the failing request
is the last one issued (the call aborts, no retry: each request kind
occurs at most once), the returned error is exactly the underlying
transport error of that request, and an error log entry carrying the
request's typed category and that error was emitted. -/
theorem sendEvent_errorPassthrough (e : ElasticSearch) (env : Env) (ev : Event) (err : TErr)
    (h : (SendEvent e env ev).result = some err) :
    (∃ q, (SendEvent e env ev).requests.getLast? = some q ∧
        respOf env q = Except.error err ∧
        LogEntry.errorLog (catOf q) err ∈ (SendEvent e env ev).logs) ∧
    (SendEvent e env ev).requests.countP isExistsReq ≤ 1 ∧
    (SendEvent e env ev).requests.countP isCreate ≤ 1 ∧
    (SendEvent e env ev).requests.countP isWrite ≤ 1 ∧
    (SendEvent e env ev).requests.countP isFlush ≤ 1 := by
  simp only [SendEvent, writeAndFlush] at h ⊢
  cases hE : env.existsResp (partitionName e (env.clock 0)) with
  | error e2 =>
    simp [hE] at h
    subst h
    refine ⟨⟨Request.indexExists (partitionName e (env.clock 0)), ?_, ?_, ?_⟩, ?_, ?_, ?_, ?_⟩ <;>
      simp [respOf, catOf, Except.map, hE, isExistsReq, isCreate, isWrite, isFlush]
  | ok found =>
    cases found with
    | true =>
      cases hW : env.indexResp (partitionName e (env.clock 1)) e.Typ { ev with Cluster := e.ClusterName } with
      | error e2 =>
        simp [hE, hW] at h
        subst h
        refine ⟨⟨Request.indexDoc (partitionName e (env.clock 1)) e.Typ
            { ev with Cluster := e.ClusterName }, ?_, ?_, ?_⟩, ?_, ?_, ?_, ?_⟩ <;>
          simp [respOf, catOf, hW, isExistsReq, isCreate, isWrite, isFlush]
      | ok u =>
        cases hF : env.flushResp (partitionName e (env.clock 2)) with
        | error e2 =>
          simp [hE, hW, hF] at h
          subst h
          refine ⟨⟨Request.flush (partitionName e (env.clock 2)), ?_, ?_, ?_⟩, ?_, ?_, ?_, ?_⟩ <;>
            simp [respOf, catOf, hF, isExistsReq, isCreate, isWrite, isFlush]
        | ok u2 => simp [hE, hW, hF] at h
    | false =>
      cases hC : env.createResp (partitionName e (env.clock 1)) ⟨⟨⟨e.Shards, e.Replicas⟩⟩⟩ with
      | error e2 =>
        simp [hE, hC] at h
        subst h
        refine ⟨⟨Request.createIndex (partitionName e (env.clock 1)) ⟨⟨⟨e.Shards, e.Replicas⟩⟩⟩,
            ?_, ?_, ?_⟩, ?_, ?_, ?_, ?_⟩ <;>
          simp [respOf, catOf, hC, isExistsReq, isCreate, isWrite, isFlush]
      | ok u =>
        cases hW : env.indexResp (partitionName e (env.clock 2)) e.Typ { ev with Cluster := e.ClusterName } with
        | error e2 =>
          simp [hE, hC, hW] at h
          subst h
          refine ⟨⟨Request.indexDoc (partitionName e (env.clock 2)) e.Typ
              { ev with Cluster := e.ClusterName }, ?_, ?_, ?_⟩, ?_, ?_, ?_, ?_⟩ <;>
            simp [respOf, catOf, hW, isExistsReq, isCreate, isWrite, isFlush]
        | ok u2 =>
          cases hF : env.flushResp (partitionName e (env.clock 3)) with
          | error e2 =>
            simp [hE, hC, hW, hF] at h
            subst h
            refine ⟨⟨Request.flush (partitionName e (env.clock 3)), ?_, ?_, ?_⟩, ?_, ?_, ?_, ?_⟩ <;>
              simp [respOf, catOf, hF, isExistsReq, isCreate, isWrite, isFlush]
          | ok u3 => simp [hE, hW, hC, hF] at h

/-- Witness for C7: the existence-check failure "connection refused" is
the response of the last request issued, is logged under its category,
and is the returned error. -/
theorem sendEvent_errorPassthrough_witness :
    (∃ q, (SendEvent sink₀ envExistsErr ev₀).requests.getLast? = some q ∧
        respOf envExistsErr q = Except.error "connection refused" ∧
        LogEntry.errorLog (catOf q) "connection refused" ∈
          (SendEvent sink₀ envExistsErr ev₀).logs) ∧
    (SendEvent sink₀ envExistsErr ev₀).requests.countP isWrite ≤ 1 :=
  ⟨(sendEvent_errorPassthrough sink₀ envExistsErr ev₀ "connection refused" (by decide)).1,
   (sendEvent_errorPassthrough sink₀ envExistsErr ev₀ "connection refused" (by decide)).2.2.2.1⟩

/-- Claim C8: the constructor's two authentication modes, selected by the
signing-enabled flag, are mutually exclusive; signed mode disables
sniffing, healthchecks and gzip and signs via STS-assumed or ambient EC2
credentials; basic mode attaches username/password, disables sniffing
and healthchecks, and enables gzip. -/
theorem newElasticSearch_authModes (benv : BuildEnv) (c : Config)
    (opts : ClientOptions) (sink : ElasticSearch)
    (h : NewElasticSearch benv c = Except.ok (opts, sink)) :
    opts.sniff = false ∧ opts.healthcheck = false ∧
    (opts.httpClient.isSome = c.CommunicationsConfig.ElasticSearch.AWSSigning.Enabled) ∧
    (opts.basicAuth.isSome = ! c.CommunicationsConfig.ElasticSearch.AWSSigning.Enabled) ∧
    (c.CommunicationsConfig.ElasticSearch.AWSSigning.Enabled = true →
        opts.gzip = false ∧ opts.basicAuth = none ∧
        opts.httpClient = some
          { creds :=
              if c.CommunicationsConfig.ElasticSearch.AWSSigning.RoleArn ≠ "" then
                CredsSource.stsAssumeRole c.CommunicationsConfig.ElasticSearch.AWSSigning.RoleArn
              else CredsSource.ec2Role
            service := awsService
            region := c.CommunicationsConfig.ElasticSearch.AWSSigning.AWSRegion }) ∧
    (c.CommunicationsConfig.ElasticSearch.AWSSigning.Enabled = false →
        opts.gzip = true ∧ opts.httpClient = none ∧
        opts.basicAuth = some (c.CommunicationsConfig.ElasticSearch.Username,
          c.CommunicationsConfig.ElasticSearch.Password)) := by
  simp only [NewElasticSearch] at h
  cases hEn : c.CommunicationsConfig.ElasticSearch.AWSSigning.Enabled with
  | true =>
    rw [hEn] at h
    simp only [if_true] at h
    split at h
    · exact absurd h (by simp)
    · split at h
      · exact absurd h (by simp)
      · injection h with h2
        injection h2 with h3 h4
        subst h3
        simp [hEn]
  | false =>
    rw [hEn] at h
    simp only [Bool.false_eq_true, if_false] at h
    split at h
    · exact absurd h (by simp)
    · injection h with h2
      injection h2 with h3 h4
      subst h3
      simp [hEn]

/-- Witness for C8: concrete basic-mode and signed-mode configurations
built with never-failing oracles produce the expected option sets. -/
theorem newElasticSearch_authModes_witness :
    (optsBasic₀.basicAuth.isSome =
      ! cfgBasic.CommunicationsConfig.ElasticSearch.AWSSigning.Enabled) ∧
    (optsSigned₀.httpClient.isSome =
      cfgSigned.CommunicationsConfig.ElasticSearch.AWSSigning.Enabled) :=
  ⟨(newElasticSearch_authModes benv₀ cfgBasic optsBasic₀ sink₀ rfl).2.2.2.1,
   (newElasticSearch_authModes benv₀ cfgSigned optsSigned₀ sink₀ rfl).2.2.1⟩

/-- Claim C9: `SendMessage` issues no request, emits no log, has no
effect on the sink, and returns success, for every input string. -/
theorem sendMessage_noop (e : ElasticSearch) (msg : String) :
    (SendMessage e msg).requests = [] ∧ (SendMessage e msg).logs = [] ∧
    (SendMessage e msg).result = none ∧ (SendMessage e msg).finalSink = e :=
  ⟨rfl, rfl, rfl, rfl⟩

/-- Claim C10: `SendEvent` leaves every field of the sink unchanged, and
the cluster-label overwrite lives only in the local copy of the
(by-value) event used as the write request's body: that body is exactly
the caller's event with only the cluster field replaced. -/
theorem sendEvent_frame (e : ElasticSearch) (env : Env) (ev : Event) :
    (SendEvent e env ev).finalSink = e ∧
    (∀ n t b, Request.indexDoc n t b ∈ (SendEvent e env ev).requests →
      b = { ev with Cluster := e.ClusterName }) := by
  simp only [SendEvent, writeAndFlush]
  cases hE : env.existsResp (partitionName e (env.clock 0)) with
  | error err => simp
  | ok found =>
    cases found with
    | true =>
      cases hW : env.indexResp (partitionName e (env.clock 1)) e.Typ { ev with Cluster := e.ClusterName } with
      | error err => simp
      | ok u =>
        cases hF : env.flushResp (partitionName e (env.clock 2)) with
        | error e2 => simp
        | ok u2 => simp
    | false =>
      cases hC : env.createResp (partitionName e (env.clock 1)) ⟨⟨⟨e.Shards, e.Replicas⟩⟩⟩ with
      | error err => simp
      | ok u =>
        cases hW : env.indexResp (partitionName e (env.clock 2)) e.Typ { ev with Cluster := e.ClusterName } with
        | error err => simp
        | ok u2 =>
          cases hF : env.flushResp (partitionName e (env.clock 3)) with
          | error e2 => simp
          | ok u3 => simp

/-- Witness for C10: after a successful call the sink is unchanged and
the written body is the caller's event with only the cluster replaced. -/
theorem sendEvent_frame_witness :
    (SendEvent sink₀ envAllOk ev₀).finalSink = sink₀ ∧
    ({ Cluster := "demo-cluster", payload := "pod oom-killed" } : Event) =
      { ev₀ with Cluster := sink₀.ClusterName } :=
  ⟨(sendEvent_frame sink₀ envAllOk ev₀).1,
   (sendEvent_frame sink₀ envAllOk ev₀).2 "k8sevents-07-03-2024" "botkube-event"
     { Cluster := "demo-cluster", payload := "pod oom-killed" } (by decide)⟩

end Botkube
